import Mathlib

/-!
Shallow embedding of mod_csrfprotector (Apache 2.2 module, file
src/apache 2.2/src/mod_csrfprotector.c).

C strings are modelled as `List Char`; a `char *` that may be NULL is an
`Option (List Char)`; behaviour that is undefined in C (dereferencing a null
pointer, reading past the end of a buffer) is modelled by `CResult.ub`.
Apache status codes are integers: OK = 0, DONE = -2, HTTP_FORBIDDEN = 403,
HTTP_INTERNAL_SERVER_ERROR = 500.
-/

/-- Result of running a piece of C code: either a value, or undefined
behaviour (null-pointer dereference or out-of-bounds access). -/
inductive CResult (α : Type) where
  | ok : α → CResult α
  | ub : CResult α
deriving DecidableEq, Repr

/-- Does `pat` occur at the head of `s`? (helper for the strstr model). -/
def headMatch : List Char → List Char → Bool
  | [], _ => true
  | _ :: _, [] => false
  | a :: as, b :: bs => a == b && headMatch as bs

/-- Model of C strstr: the suffix of `hay` starting at the first occurrence of
`pat`, or `none` (NULL) when `pat` does not occur in `hay`. -/
def strstr : List Char → List Char → Option (List Char)
  | [], pat => if headMatch pat [] then some [] else none
  | x :: t, pat => if headMatch pat (x :: t) then some (x :: t) else strstr t pat

/-- First half of the ap_getword scan: the characters before the first stop
character, and the rest of the string from that stop character on. -/
def scanStop (c : Char) : List Char → List Char × List Char
  | [] => ([], [])
  | x :: t =>
    if x = c then ([], x :: t)
    else
      let p := scanStop c t
      (x :: p.1, p.2)

/-- Second half of the ap_getword scan: skip the run of consecutive stop
characters standing at the head of the string. -/
def dropStops (c : Char) : List Char → List Char
  | [] => []
  | x :: t => if x = c then dropStops c t else x :: t

/-- Model of ap_getword(pool, &line, stop): returns the word before the first
stop character and advances the line past the consecutive run of stop
characters that follows the word. -/
def getword (c : Char) (s : List Char) : List Char × List Char :=
  ((scanStop c s).1, dropStops c (scanStop c s).2)

theorem dropStops_length_le (c : Char) (s : List Char) :
    (dropStops c s).length ≤ s.length := by
  induction s with
  | nil => simp [dropStops]
  | cons x t ih =>
    by_cases hx : x = c
    · simp only [dropStops, if_pos hx]
      exact le_trans ih (Nat.le_succ _)
    · simp [dropStops, hx]

theorem scanStop_snd_length_le (c : Char) (s : List Char) :
    (scanStop c s).2.length ≤ s.length := by
  induction s with
  | nil => simp [scanStop]
  | cons x t ih =>
    by_cases hx : x = c
    · simp [scanStop, hx]
    · simp only [scanStop, if_neg hx]
      exact le_trans ih (Nat.le_succ _)

theorem scanStop_snd_shape (c : Char) (s : List Char) :
    (scanStop c s).2 = [] ∨ ∃ u, (scanStop c s).2 = c :: u := by
  induction s with
  | nil => left; simp [scanStop]
  | cons x t ih =>
    by_cases hx : x = c
    · right
      refine ⟨t, ?_⟩
      simp [scanStop, hx]
    · simpa [scanStop, hx] using ih

theorem getword_snd_length_lt (c : Char) (s : List Char) (h : s ≠ []) :
    (getword c s).2.length < s.length := by
  have hpos : 0 < s.length := List.length_pos.mpr h
  rcases scanStop_snd_shape c s with h2 | ⟨u, h2⟩
  · simp [getword, h2, dropStops, hpos]
  · have hle : (scanStop c s).2.length ≤ s.length := scanStop_snd_length_le c s
    rw [h2] at hle
    simp only [List.length_cons] at hle
    have hd : (dropStops c u).length ≤ u.length := dropStops_length_le c u
    have hstep : dropStops c (c :: u) = dropStops c u := by simp [dropStops]
    simp only [getword, h2, hstep]
    omega

/-- Case-insensitive view of a C string, for the strcasecmp comparisons. -/
def toLowerStr (s : List Char) : List Char := s.map Char.toLower

/-- Numeric value of a hexadecimal digit, if the character is one. -/
def hexVal (c : Char) : Option Nat :=
  if '0' ≤ c ∧ c ≤ '9' then some (c.toNat - 48)
  else if 'A' ≤ c ∧ c ≤ 'F' then some (c.toNat - 55)
  else if 'a' ≤ c ∧ c ≤ 'f' then some (c.toNat - 87)
  else none

/-- Model of ap_unescape_url as used by read_post: decodes percent escapes in
place; the error code the real function can return is ignored by the caller
in the source, so only the decoded buffer is modelled. -/
def unescapeUrl : List Char → List Char
  | [] => []
  | '%' :: a :: b :: t =>
    match hexVal a, hexVal b with
    | some ha, some hb => Char.ofNat (ha * 16 + hb) :: unescapeUrl t
    | _, _ => '%' :: unescapeUrl (a :: b :: t)
  | c :: t => c :: unescapeUrl t

/-- Model of apr_table_setn: replace the value of the first entry with the
given key, or append a new entry when the key is not present. -/
def tableSet : List (List Char × List Char) → List Char → List Char →
    List (List Char × List Char)
  | [], k, v => [(k, v)]
  | kv :: t, k, v => if kv.1 = k then (k, v) :: t else kv :: tableSet t k v

/-- Model of apr_table_get on a non-null table: the value of the first entry
with the given key. -/
def tableGet : List (List Char × List Char) → List Char → Option (List Char)
  | [], _ => none
  | kv :: t, k => if kv.1 = k then some kv.2 else tableGet t k

/-- Is the character one the C isspace test accepts? (for the atoi model). -/
def isSpaceC (c : Char) : Bool :=
  c == ' ' || c == '\t' || c == '\n' || c == '\r' ||
    c == Char.ofNat 11 || c == Char.ofNat 12

/-- Accumulate the value of a leading run of decimal digits. -/
def digitsVal : List Char → Nat → Nat
  | [], acc => acc
  | c :: t, acc =>
    if '0' ≤ c ∧ c ≤ '9' then digitsVal t (acc * 10 + (c.toNat - 48)) else acc

/-- Model of C atoi: skip leading whitespace, read an optional sign and a run
of decimal digits; no digits gives 0. -/
def atoi (s : List Char) : Int :=
  match s.dropWhile isSpaceC with
  | '-' :: t => -(Int.ofNat (digitsVal t 0))
  | '+' :: t => Int.ofNat (digitsVal t 0)
  | s1 => Int.ofNat (digitsVal s1 0)

/-- The cookie and parameter name CSRFP_TOKEN = "csrfp_token". -/
def csrfpTokenName : List Char := ("csrfp_token").data

/-- The content type DEFAULT_POST_ENCTYPE accepted by read_post. -/
def defaultPostEnctype : List Char := ("application/x-www-form-urlencoded").data

/-- The per-server configuration struct csrfp_config. A `char *` field the
source can set to NULL is an `Option`; verifyGetFor holds the source text of
the GET-verification pattern (the source never stores one). -/
structure CsrfpConfig where
  flag : Int
  action : Int
  errorRedirectionUri : Option (List Char)
  errorCustomMessage : Option (List Char)
  jsFilePath : List Char
  tokenLength : Int
  disablesJsMessage : List Char
  verifyGetFor : Option (List Char)
deriving DecidableEq, Repr

/-- DEFAULT_ERROR_MESSAGE from the source. -/
def defaultErrorMessage : List Char :=
  ("<h2>ACCESS FORBIDDEN BY OWASP CSRF_PROTECTOR!</h2>").data

/-- DEFAULT_JS_FILE_PATH from the source. -/
def defaultJsFilePath : List Char :=
  ("http://localhost/csrfp_js/csrfprotector.js").data

/-- DEFAULT_DISABLED_JS_MESSSAGE from the source (the concatenated C string
literal, spacing preserved). -/
def defaultDisabledJsMessage : List Char :=
  ("This site attempts to protect users against <a href=\"https://www.owasp.org/index.php/Cross-Site_Request_Forgery_%28CSRF%29\"> Cross-Site Request Forgeries </a> attacks. In order to do so, you must have JavaScript  enabled in your web browser otherwise this site will fail to work correctly for you.  See details of your web browser for how to enable JavaScript.").data

/-- Model of csrfp_srv_config_create: the configuration after the defaults are
installed (flag 1, action DEFAULT_ACTION = 0, tokenLength
DEFAULT_TOKEN_LENGTH = 15, strncpy-truncated default strings, verifyGetFor
NULL from the zeroing apr_pcalloc). -/
def defaultConfig : CsrfpConfig :=
  { flag := 1
    action := 0
    errorRedirectionUri := some []
    errorCustomMessage := some (defaultErrorMessage.take 200)
    jsFilePath := defaultJsFilePath.take 200
    tokenLength := 15
    disablesJsMessage := defaultDisabledJsMessage.take 400
    verifyGetFor := none }

/-- Model of csrfp_enable_cmd: "off" (case-insensitive) clears the flag, any
other argument sets it. -/
def csrfp_enable_cmd (arg : List Char) (cfg : CsrfpConfig) : CsrfpConfig :=
  if toLowerStr arg = ("off").data then { cfg with flag := 0 }
  else { cfg with flag := 1 }

/-- Model of csrfp_action_cmd: maps the directive argument (compared with
strcasecmp) to the action code; any unrecognized argument falls back to
CSRFP_ACTION_FORBIDDEN = 0. -/
def csrfp_action_cmd (arg : List Char) (cfg : CsrfpConfig) : CsrfpConfig :=
  if toLowerStr arg = ("forbidden").data then { cfg with action := 0 }
  else if toLowerStr arg = ("strip").data then { cfg with action := 1 }
  else if toLowerStr arg = ("redirect").data then { cfg with action := 2 }
  else if toLowerStr arg = ("message").data then { cfg with action := 3 }
  else if toLowerStr arg = ("internal_server_error").data then { cfg with action := 4 }
  else { cfg with action := 0 }

/-- Model of csrfp_errorRedirectionUri_cmd: a non-empty argument is copied
(strncpy, CSRFP_URI_MAXLENGTH = 200); an empty argument nulls the field. -/
def csrfp_errorRedirectionUri_cmd (arg : List Char) (cfg : CsrfpConfig) : CsrfpConfig :=
  if 0 < arg.length then { cfg with errorRedirectionUri := some (arg.take 200) }
  else { cfg with errorRedirectionUri := none }

/-- Model of csrfp_errorCustomMessage_cmd: a non-empty argument is copied
(strncpy, CSRFP_ERROR_MESSAGE_MAXLENGTH = 200); an empty argument nulls the
field. -/
def csrfp_errorCustomMessage_cmd (arg : List Char) (cfg : CsrfpConfig) : CsrfpConfig :=
  if 0 < arg.length then { cfg with errorCustomMessage := some (arg.take 200) }
  else { cfg with errorCustomMessage := none }

/-- Model of csrfp_jsFilePath_cmd: a non-empty argument is copied (strncpy,
CSRFP_URI_MAXLENGTH = 200); an empty argument leaves the default. -/
def csrfp_jsFilePath_cmd (arg : List Char) (cfg : CsrfpConfig) : CsrfpConfig :=
  if 0 < arg.length then { cfg with jsFilePath := arg.take 200 } else cfg

/-- Model of csrfp_tokenLength_cmd. The first component is the error string
the handler reports to the host (the source always returns NULL, that is
`none`: the directive is never rejected). A non-empty argument is run through
atoi and stored only when the result is nonzero; otherwise the previous value
stays. -/
def csrfp_tokenLength_cmd (arg : List Char) (cfg : CsrfpConfig) :
    Option (List Char) × CsrfpConfig :=
  if 0 < arg.length then
    let length := atoi arg
    if length ≠ 0 then (none, { cfg with tokenLength := length }) else (none, cfg)
  else (none, cfg)

/-- Model of csrfp_disablesJsMessage_cmd: a non-empty argument is copied
(strncpy, CSRFP_DISABLED_JS_MESSAGE_MAXLENGTH = 400). -/
def csrfp_disablesJsMessage_cmd (arg : List Char) (cfg : CsrfpConfig) : CsrfpConfig :=
  if 0 < arg.length then { cfg with disablesJsMessage := arg.take 400 } else cfg

/-- Model of csrfp_verifyGetFor_cmd: the handler body is a todo stub that
stores NULL into config->verifyGetFor whatever the argument is. -/
def csrfp_verifyGetFor_cmd (arg : List Char) (cfg : CsrfpConfig) : CsrfpConfig :=
  { cfg with verifyGetFor := none }

/-- Read-only view of one incoming request: r->method, the Content-Type
request header, the raw POST body util_read would produce, r->args (the raw
query string, NULL when absent) and the raw Cookie request header. -/
structure RequestIn where
  method : List Char
  contentType : Option (List Char)
  body : List Char
  args : Option (List Char)
  cookieHeader : Option (List Char)
deriving DecidableEq, Repr

/-- Mutable response-side state touched by the module: r->headers_out,
r->subprocess_env, whether ap_add_output_filter registered the output filter,
and the bytes written through ap_rprintf. -/
structure ResponseState where
  headersOut : List (List Char × List Char)
  subprocessEnv : List (List Char × List Char)
  outputFilterRegistered : Bool
  emitted : List Char
deriving DecidableEq, Repr

/-- The response state at the start of a request: no headers, no env entries,
no filter, nothing written. -/
def emptyResponseState : ResponseState :=
  { headersOut := [], subprocessEnv := [], outputFilterRegistered := false,
    emitted := [] }

/-- The shape shared by the parsing loops of read_post and csrf_get_query:
while data remains, split off a word at the next run of ampersands and fold
it into the table with `step`. The loop is written with a fuel argument so
that it is structurally recursive; every iteration strictly shortens the data
(getword_snd_length_lt), so fuel equal to the data length never runs out,
which wordLoop_extend makes precise: the function below computes exactly the
unbounded C loop. -/
def wordLoop (step : List Char → List (List Char × List Char) →
    List (List Char × List Char)) :
    Nat → List Char → List (List Char × List Char) →
      List (List Char × List Char)
  | 0, _, tbl => tbl
  | fuel + 1, data, tbl =>
    if data = [] then tbl
    else wordLoop step fuel (getword '&' data).2 (step (getword '&' data).1 tbl)

theorem wordLoop_nil (step : List Char → List (List Char × List Char) →
    List (List Char × List Char)) (fuel : Nat)
    (tbl : List (List Char × List Char)) : wordLoop step fuel [] tbl = tbl := by
  cases fuel <;> simp [wordLoop]

theorem wordLoop_extend (step : List Char → List (List Char × List Char) →
    List (List Char × List Char)) :
    ∀ (n fuel1 fuel2 : Nat) (data : List Char)
      (tbl : List (List Char × List Char)),
      data.length ≤ n → data.length ≤ fuel1 → data.length ≤ fuel2 →
      wordLoop step fuel1 data tbl = wordLoop step fuel2 data tbl := by
  intro n
  induction n with
  | zero =>
    intro fuel1 fuel2 data tbl hn _ _
    have hd : data = [] := List.length_eq_zero.mp (Nat.le_zero.mp hn)
    subst hd
    rw [wordLoop_nil, wordLoop_nil]
  | succ n ih =>
    intro fuel1 fuel2 data tbl hn h1 h2
    rcases data with _ | ⟨c, t⟩
    · rw [wordLoop_nil, wordLoop_nil]
    · have hne : (c :: t) ≠ ([] : List Char) := by simp
      have hlen : 0 < (c :: t).length := by simp
      rcases fuel1 with _ | f1
      · omega
      rcases fuel2 with _ | f2
      · omega
      have hrest : (getword '&' (c :: t)).2.length < (c :: t).length :=
        getword_snd_length_lt '&' (c :: t) hne
      simp only [wordLoop, if_neg hne]
      exact ih f1 f2 (getword '&' (c :: t)).2 _ (by omega) (by omega) (by omega)

/-- One iteration body of the read_post loop: split the word at the first run
of equal signs, percent-decode key and value and store them with
apr_table_setn. -/
def postStep (word : List Char) (tbl : List (List Char × List Char)) :
    List (List Char × List Char) :=
  tableSet tbl (unescapeUrl (getword '=' word).1) (unescapeUrl (getword '=' word).2)

/-- The key/value parsing loop of read_post. -/
def postPairs (data : List Char) (tbl : List (List Char × List Char)) :
    List (List Char × List Char) :=
  wordLoop postStep data.length data tbl

/-- Model of read_post. Returns `ok none` where the C function returns NULL
(non-POST method, or a content type other than the urlencoded one). A missing
Content-Type header makes the source call strcasecmp(NULL, ...), which is
undefined behaviour. -/
def read_post (r : RequestIn) : CResult (Option (List (List Char × List Char))) :=
  if r.method ≠ ("POST").data then CResult.ok none
  else
    match r.contentType with
    | none => CResult.ub
    | some t =>
      if toLowerStr t ≠ toLowerStr defaultPostEnctype then CResult.ok none
      else CResult.ok (some (postPairs r.body []))

/-- One iteration body of the csrf_get_query loop: same word splitting as
read_post but with apr_table_addn (append) and no percent-decoding. -/
def queryStep (word : List Char) (tbl : List (List Char × List Char)) :
    List (List Char × List Char) :=
  tbl ++ [((getword '=' word).1, (getword '=' word).2)]

/-- The key/value parsing loop of csrf_get_query. -/
def queryPairs (args : List Char) (tbl : List (List Char × List Char)) :
    List (List Char × List Char) :=
  wordLoop queryStep args.length args tbl

/-- Model of csrf_get_query: NULL when r->args is NULL, otherwise the parsed
query table. -/
def csrf_get_query (r : RequestIn) : Option (List (List Char × List Char)) :=
  match r.args with
  | none => none
  | some args => some (queryPairs args [])

/-- The token having been found at `p` (the strstr suffix), the source scans
`p` for the first semicolon (or the end) to get `pos`, computes
len = pos - strlen("csrfp_token") - 1 and copies len characters starting at
p[strlen("csrfp_token") + 1]. A `pos` below 12 makes len negative, which is
passed to apr_pcalloc as a huge unsigned size: undefined behaviour. -/
def cookieTokenFrom (p : List Char) : CResult (Option (List Char)) :=
  let pos : Nat := p.findIdx (fun c => c == ';')
  if pos < csrfpTokenName.length + 1 then CResult.ub
  else
    CResult.ok (some ((p.drop (csrfpTokenName.length + 1)).take
      (pos - (csrfpTokenName.length + 1))))

/-- Model of getCookieToken: NULL when there is no Cookie header; otherwise
strstr for "csrfp_token" — when strstr returns NULL (the header does not
contain the string) the source immediately calls strlen on it, which is
undefined behaviour; otherwise the value is cut out up to the next semicolon
or the end of the header. -/
def getCookieToken (cookieHeader : Option (List Char)) : CResult (Option (List Char)) :=
  match cookieHeader with
  | none => CResult.ok none
  | some cookie =>
    match strstr cookie csrfpTokenName with
    | none => CResult.ub
    | some p => cookieTokenFrom p

/-- Model of validatePOSTtoken. read_post returning NULL makes the source call
apr_table_get on a null table (undefined behaviour); a missing csrfp_token
entry returns 0; otherwise the entry is strcmp-ed against getCookieToken,
whose NULL result would be dereferenced by strcmp (undefined behaviour). -/
def validatePOSTtoken (r : RequestIn) : CResult Bool :=
  match read_post r with
  | CResult.ub => CResult.ub
  | CResult.ok none => CResult.ub
  | CResult.ok (some post) =>
    match tableGet post csrfpTokenName with
    | none => CResult.ok false
    | some tokenValue =>
      match getCookieToken r.cookieHeader with
      | CResult.ub => CResult.ub
      | CResult.ok none => CResult.ub
      | CResult.ok (some ct) => CResult.ok (decide (tokenValue = ct))

/-- Model of validateGETTtoken: 0 when csrf_get_query returns NULL or the
query holds no csrfp_token entry; otherwise the entry is strcmp-ed against
getCookieToken with the same null-dereference hazards as the POST path. -/
def validateGETTtoken (r : RequestIn) : CResult Bool :=
  match csrf_get_query r with
  | none => CResult.ok false
  | some tbl =>
    match tableGet tbl csrfpTokenName with
    | none => CResult.ok false
    | some tv =>
      match getCookieToken r.cookieHeader with
      | CResult.ub => CResult.ub
      | CResult.ok none => CResult.ub
      | CResult.ok (some ct) => CResult.ok (decide (tv = ct))

/-- The character set string of generateToken, verbatim from the source. -/
def stringset : List Char :=
  ("ABCDEFGHIJKLMNOPQRSTWXYZabcdefghijklmnopqrstuvwxyz0123456789").data

/-- Reading stringset[i] in C: in bounds gives the character, the index equal
to the length gives the string literal terminator (the NUL character), any
larger index reads past the literal: undefined behaviour. -/
def stringsetRead (i : Nat) : CResult Char :=
  if h : i < stringset.length then CResult.ok (stringset.get ⟨i, h⟩)
  else if i = stringset.length then CResult.ok (Char.ofNat 0)
  else CResult.ub

/-- One iteration of the generateToken loop: rno = rand() % 123 + 1, then
stringset[rno] when rno < 62, else stringset[rno - 62]. -/
def tokenChar (rnd : Nat) : CResult Char :=
  let rno := rnd % 123 + 1
  if rno < 62 then stringsetRead rno else stringsetRead (rno - 62)

/-- Model of generateToken: `rnd i` is the value of the i-th rand() call; the
loop fills token[0] .. token[length - 1]. Any out-of-bounds stringset read
poisons the whole call. -/
def generateToken (rnd : Nat → Nat) (length : Nat) : CResult (List Char) :=
  (List.range length).foldr
    (fun i acc =>
      match tokenChar (rnd i), acc with
      | CResult.ok c, CResult.ok cs => CResult.ok (c :: cs)
      | _, _ => CResult.ub)
    (CResult.ok [])

/-- Model of setTokenCookie: the body of the source function is only
`return 0;` — it touches no header and is never called anywhere. -/
def setTokenCookie (st : ResponseState) : Int × ResponseState := (0, st)

/-- Status code plus bytes written with ap_rprintf by failedValidationAction. -/
structure ActionResult where
  status : Int
  emitted : List Char
deriving DecidableEq, Repr

/-- Model of failedValidationAction: switch on conf->action. Forbidden gives
HTTP_FORBIDDEN = 403; strip is a todo stub returning OK = 0; redirect is a
todo stub returning DONE = -2 without using errorRedirectionUri; message
prints the custom message wrapped in h2 tags and returns DONE (printing a
null message with the %s format is undefined behaviour); 4 gives
HTTP_INTERNAL_SERVER_ERROR = 500; everything else defaults to 403. -/
def failedValidationAction (conf : CsrfpConfig) : CResult ActionResult :=
  if conf.action = 0 then CResult.ok ⟨403, []⟩
  else if conf.action = 1 then CResult.ok ⟨0, []⟩
  else if conf.action = 2 then CResult.ok ⟨-2, []⟩
  else if conf.action = 3 then
    match conf.errorCustomMessage with
    | some m => CResult.ok ⟨-2, ("<h2>").data ++ m ++ ("</h2>").data⟩
    | none => CResult.ub
  else if conf.action = 4 then CResult.ok ⟨500, []⟩
  else CResult.ok ⟨403, []⟩

/-- The common tail of the header hook: apr_table_add of regenToken = "true"
into subprocess_env and apr_table_addn of the X-Protected-By marker into
headers_out. -/
def finishHeaders (st : ResponseState) : ResponseState :=
  { st with
    subprocessEnv := st.subprocessEnv ++ [(("regenToken").data, ("true").data)],
    headersOut := st.headersOut ++ [(("X-Protected-By").data, ("CSRFP 0.0.1").data)] }

/-- Model of the header hook csrfp_header_parser (name adjusted): with the
flag clear it returns OK at once, touching nothing. Otherwise it registers
the output filter, and for a POST request whose validatePOSTtoken fails it
returns failedValidationAction. The GET branch of the source contains only
todo comments, so every non-failing request falls through to the common tail
and returns OK. -/
def csrfp_header_hook (conf : CsrfpConfig) (r : RequestIn) (st : ResponseState) :
    CResult (Int × ResponseState) :=
  if conf.flag = 0 then CResult.ok (0, st)
  else
    let st1 := { st with outputFilterRegistered := true }
    if r.method = ("POST").data then
      match validatePOSTtoken r with
      | CResult.ub => CResult.ub
      | CResult.ok false =>
        match failedValidationAction conf with
        | CResult.ub => CResult.ub
        | CResult.ok ar =>
          CResult.ok (ar.status, { st1 with emitted := st1.emitted ++ ar.emitted })
      | CResult.ok true => CResult.ok (0, finishHeaders st1)
    else CResult.ok (0, finishHeaders st1)

/-- Model of csrfp_out_filter: adds the output_filter = called header, prints
the debug line through ap_rprintf and passes the brigade on unchanged. The
source also looks regenToken up in subprocess_env and compares it with
"true", but the body of that if-statement contains only comments, so the
lookup has no effect; the planned body rewrite and Set-Cookie emission exist
only as comments. -/
def csrfp_out_filter (env : List (List Char × List Char)) (st : ResponseState)
    (brigade : List Char) : ResponseState × List Char :=
  let st1 := { st with
    headersOut := st.headersOut ++ [(("output_filter").data, ("called").data)] }
  let st2 := { st1 with emitted := st1.emitted ++ ("<br>output filter").data }
  (st2, brigade)

/-- One whole request through the module: the header hook runs first on a
fresh response state; when it registered the output filter, the filter then
runs over the response body brigade. -/
def pipelineRun (conf : CsrfpConfig) (r : RequestIn) (body : List Char) :
    CResult (Int × ResponseState × List Char) :=
  match csrfp_header_hook conf r emptyResponseState with
  | CResult.ub => CResult.ub
  | CResult.ok (status, st) =>
    if st.outputFilterRegistered then
      let fr := csrfp_out_filter st.subprocessEnv st body
      CResult.ok (status, fr.1, fr.2)
    else CResult.ok (status, st, body)

/-- The headers_out table of a pipeline result (empty for the UB case). -/
def resultHeadersOut : CResult (Int × ResponseState × List Char) →
    List (List Char × List Char)
  | CResult.ok (_, st, _) => st.headersOut
  | CResult.ub => []

/-- A POST request carrying the urlencoded content type, the given raw body
and the given Cookie header. -/
def mkPost (body : List Char) (cookie : Option (List Char)) : RequestIn :=
  { method := ("POST").data, contentType := some defaultPostEnctype,
    body := body, args := none, cookieHeader := cookie }

/-- A plain GET request with no query string and an existing token cookie. -/
def reqGetPlain : RequestIn :=
  { method := ("GET").data, contentType := none, body := [],
    args := none, cookieHeader := some (("csrfp_token=oldtokenvalue").data) }

/-- A GET request whose query carries a token different from the cookie one. -/
def reqGetWrongToken : RequestIn :=
  { method := ("GET").data, contentType := none, body := [],
    args := some (("csrfp_token=wrongvalue").data),
    cookieHeader := some (("csrfp_token=rightvalue").data) }

/-- The sample HTML body from the specification. -/
def htmlBody : List Char := ("<html><body>hi</body></html>").data

/-- The 62-character alphabet named by the specification for tokens:
upper-case letters, lower-case letters and digits. -/
def specAlphabet62 : List Char :=
  ("ABCDEFGHIJKLMNOPQRSTUVWXYZabcdefghijklmnopqrstuvwxyz0123456789").data

/-- C1: an allowed request under the default (enabled) configuration is
claimed to receive a fresh csrfp_token Set-Cookie; in the code, the whole
pipeline adds only the X-Protected-By and output_filter headers, the body
brigade passes through unchanged, no Set-Cookie header at all is produced,
and setTokenCookie is a stub that returns 0 and leaves the state untouched. -/
theorem C1_no_set_cookie_on_allowed_response :
    pipelineRun defaultConfig reqGetPlain htmlBody =
      CResult.ok (0,
        { headersOut := [(("X-Protected-By").data, ("CSRFP 0.0.1").data),
                         (("output_filter").data, ("called").data)],
          subprocessEnv := [(("regenToken").data, ("true").data)],
          outputFilterRegistered := true,
          emitted := ("<br>output filter").data },
        htmlBody) ∧
    (resultHeadersOut (pipelineRun defaultConfig reqGetPlain htmlBody)).all
      (fun kv => !(kv.1 == ("Set-Cookie").data)) = true ∧
    ∀ st : ResponseState, setTokenCookie st = (0, st) :=
  ⟨by decide, by decide, fun st => rfl⟩

/-- C2: POST validation with matching cookie and body tokens passes (1), with
differing tokens fails (0), and with a missing csrfp_token body field fails
(0); but with no Cookie header at all the code hands the NULL result of
getCookieToken straight to strcmp, which is undefined behaviour rather than
the NoCookie failure the claim describes. -/
theorem C2_post_validation_cases :
    validatePOSTtoken (mkPost (("csrfp_token=abc").data)
        (some (("csrfp_token=abc").data))) = CResult.ok true ∧
    validatePOSTtoken (mkPost (("csrfp_token=xyz").data)
        (some (("csrfp_token=abc").data))) = CResult.ok false ∧
    validatePOSTtoken (mkPost (("foo=bar").data)
        (some (("csrfp_token=abc").data))) = CResult.ok false ∧
    validatePOSTtoken (mkPost (("csrfp_token=abc").data) none) = CResult.ub := by
  decide

/-- C3: the action dispatcher sends forbidden to 403, message to the custom
message wrapped in h2 tags, internal_server_error to 500 and unknown or unset
actions to 403 as claimed; but for the redirect action it returns the bare
Apache DONE status (-2) and emits nothing: errorRedirectionUri is never used
and no redirect of any kind is produced. -/
theorem C3_action_dispatch_cases :
    failedValidationAction (csrfp_action_cmd (("forbidden").data) defaultConfig)
      = CResult.ok ⟨403, []⟩ ∧
    failedValidationAction (csrfp_errorRedirectionUri_cmd (("http://x/err").data)
        (csrfp_action_cmd (("redirect").data) defaultConfig))
      = CResult.ok ⟨-2, []⟩ ∧
    failedValidationAction (csrfp_errorCustomMessage_cmd (("blocked").data)
        (csrfp_action_cmd (("message").data) defaultConfig))
      = CResult.ok ⟨-2, ("<h2>blocked</h2>").data⟩ ∧
    failedValidationAction (csrfp_action_cmd (("internal_server_error").data)
        defaultConfig) = CResult.ok ⟨500, []⟩ ∧
    failedValidationAction (csrfp_action_cmd (("bogus").data) defaultConfig)
      = CResult.ok ⟨403, []⟩ ∧
    failedValidationAction defaultConfig = CResult.ok ⟨403, []⟩ ∧
    failedValidationAction { defaultConfig with action := 7 }
      = CResult.ok ⟨403, []⟩ := by
  decide

/-- C4: the verifyGetFor directive handler discards its pattern argument and
stores NULL, and the GET branch of the header hook is an empty todo block, so
a GET request whose query token contradicts its cookie token — which the
claim says must be validated when a pattern is configured — sails through
with OK while the (never called) GET validator itself would report failure. -/
theorem C4_get_requests_never_validated :
    (csrfp_verifyGetFor_cmd (("/x(.*)").data) defaultConfig).verifyGetFor = none ∧
    csrfp_header_hook (csrfp_verifyGetFor_cmd (("/x(.*)").data) defaultConfig)
        reqGetWrongToken emptyResponseState
      = CResult.ok (0, finishHeaders
          { emptyResponseState with outputFilterRegistered := true }) ∧
    validateGETTtoken reqGetWrongToken = CResult.ok false := by
  decide

/-- C5: the claim says the output filter injects a noscript block after the
opening body tag and a script reference before the closing one; in the code
the filter passes the brigade through byte-for-byte unchanged, so the output
body is the input body and contains neither a noscript tag, nor a script tag,
nor the configured jsFilePath. -/
theorem C5_out_filter_passes_body_unchanged :
    (csrfp_out_filter [(("regenToken").data, ("true").data)] emptyResponseState
      htmlBody).2 = htmlBody ∧
    strstr (csrfp_out_filter [(("regenToken").data, ("true").data)]
      emptyResponseState htmlBody).2 (("<noscript").data) = none ∧
    strstr (csrfp_out_filter [(("regenToken").data, ("true").data)]
      emptyResponseState htmlBody).2 (("<script").data) = none ∧
    strstr (csrfp_out_filter [(("regenToken").data, ("true").data)]
      emptyResponseState htmlBody).2 defaultConfig.jsFilePath = none := by
  decide

/-- C6: with no Cookie header the extractor returns NULL as claimed, and when
the csrfp_token= segment is present the value up to the next semicolon or the
end of the header is returned; but a present header that does not contain the
string csrfp_token (including the empty header) makes the code call strlen on
the NULL result of strstr — undefined behaviour, not the None the claim
requires. -/
theorem C6_cookie_extraction_cases :
    getCookieToken none = CResult.ok none ∧
    getCookieToken (some (("sessionid=xyz").data)) = CResult.ub ∧
    getCookieToken (some []) = CResult.ub ∧
    getCookieToken (some (("a=b; csrfp_token=tok123").data))
      = CResult.ok (some (("tok123").data)) ∧
    getCookieToken (some (("csrfp_token=tok; x=y").data))
      = CResult.ok (some (("tok").data)) := by
  decide

/-- C7: the claim says every generated character comes from the 62-character
alphabet of letters and digits; the stringset literal in the code has only 60
characters (the letters U and V are missing), a rand value of 59 makes
rno = 60 index the NUL terminator into the token, and a rand value of 60
makes rno = 61 read past the end of the literal — undefined behaviour. A
benign rand stream does produce a token of the requested length. -/
theorem C7_generate_token_cases :
    generateToken (fun _ => 0) 5 = CResult.ok (("BBBBB").data) ∧
    generateToken (fun _ => 59) 1 = CResult.ok [Char.ofNat 0] ∧
    ¬ Char.ofNat 0 ∈ specAlphabet62 ∧
    generateToken (fun _ => 60) 1 = CResult.ub ∧
    stringset.length = 60 ∧
    ¬ ('U' : Char) ∈ stringset ∧
    ¬ ('V' : Char) ∈ stringset := by
  decide

/-- C8: with the enable flag cleared the header hook returns OK immediately
without registering the output filter, adding headers, setting environment
entries, running any validation or writing output, and the whole pipeline
returns the response body unchanged. -/
theorem C8_disabled_bypass (conf : CsrfpConfig) (r : RequestIn)
    (st : ResponseState) (body : List Char) (h : conf.flag = 0) :
    csrfp_header_hook conf r st = CResult.ok (0, st) ∧
    pipelineRun conf r body = CResult.ok (0, emptyResponseState, body) := by
  constructor
  · simp [csrfp_header_hook, h]
  · simp [pipelineRun, csrfp_header_hook, h, emptyResponseState]

/-- C8 witness: a concrete disabled configuration (csrfpEnable off) with a
concrete request, state and body. -/
theorem C8_disabled_bypass_witness :
    csrfp_header_hook (csrfp_enable_cmd (("off").data) defaultConfig)
        reqGetPlain emptyResponseState = CResult.ok (0, emptyResponseState) ∧
    pipelineRun (csrfp_enable_cmd (("off").data) defaultConfig) reqGetPlain
        htmlBody = CResult.ok (0, emptyResponseState, htmlBody) :=
  C8_disabled_bypass _ _ _ _ (by decide)

set_option maxRecDepth 40000 in
/-- C9 counterexample: the tokenLength directive with the non-positive
argument -5 is accepted without any configuration error (the handler reports
none) and stores -5, so at request time cfg.tokenLength is not strictly
positive, contrary to the claim; the argument 0 is silently swallowed,
keeping the default instead of failing. -/
theorem C9_nonpositive_length_accepted :
    (csrfp_tokenLength_cmd (("-5").data) defaultConfig).1 = none ∧
    (csrfp_tokenLength_cmd (("-5").data) defaultConfig).2.tokenLength = -5 ∧
    ¬ 0 < (csrfp_tokenLength_cmd (("-5").data) defaultConfig).2.tokenLength ∧
    csrfp_tokenLength_cmd (("0").data) defaultConfig = (none, defaultConfig) := by
  decide

/-- C9 amended: the tokenLength directive never reports a configuration
error; an empty argument or one whose atoi value is zero silently keeps the
previous token length (the default is 15), and any other value — negative
ones included — is stored as is, so cfg.tokenLength can be non-positive at
request time. -/
theorem C9_tokenLength_never_rejected (arg : List Char) (cfg : CsrfpConfig) :
    (csrfp_tokenLength_cmd arg cfg).1 = none ∧
    (csrfp_tokenLength_cmd arg cfg).2.tokenLength =
      (if arg = [] ∨ atoi arg = 0 then cfg.tokenLength else atoi arg) := by
  unfold csrfp_tokenLength_cmd
  rcases arg with _ | ⟨c, t⟩
  · simp
  · by_cases h : atoi (c :: t) = 0
    · simp [h]
    · simp [h]

/-- C10: cookie extraction matches the bare substring csrfp_token anywhere in
the header, so a header whose first occurrence of that string lies inside the
name of another cookie (xcsrfp_token) or inside the value of another cookie
yields that other value — here v, and evil — instead of the value real of
the cookie actually named csrfp_token. -/
theorem C10_substring_cookie_match :
    getCookieToken (some (("xcsrfp_token=v; csrfp_token=real").data))
      = CResult.ok (some (("v").data)) ∧
    getCookieToken (some (("a=csrfp_token=evil; csrfp_token=real").data))
      = CResult.ok (some (("evil").data)) ∧
    (("v").data ≠ ("real").data) ∧ (("evil").data ≠ ("real").data) := by
  decide
